import Mathlib

/-!
Shallow embedding of `swebench/harness/docker_utils.py`.

Python strings are modelled as Lean `String`s; `str.startswith` is modelled
by `strStartsWith` (byte-for-byte prefix test on the character data).
Python sets of image names are modelled as `List String` with membership
via `List.contains`.
-/

namespace DockerUtils

/-- Model of Python `str.startswith`: the pattern's characters form a
prefix of the subject's characters. -/
def strStartsWith (s pat : String) : Bool :=
  pat.data.isPrefixOf s.data

/-- Embedding of `should_remove(image_name, cache, clean, prior_images)`:
determine if an image should be removed based on cache level and clean flag. -/
def should_remove (image_name : String) (cache : String) (clean : Bool)
    (prior_images : List String) : Bool :=
  let existed_before := prior_images.contains image_name
  if strStartsWith image_name "sweb.base" then
    (["none"] : List String).contains cache && (clean || !existed_before)
  else if strStartsWith image_name "sweb.env" then
    (["none", "base"] : List String).contains cache && (clean || !existed_before)
  else if strStartsWith image_name "sweb.eval" then
    (["none", "base", "env"] : List String).contains cache && (clean || !existed_before)
  else
    false

/-- Two patterns that are not prefixes of one another cannot both be
prefixes of the same string. -/
theorem strStartsWith_excl (s p q : String)
    (hnpq : ¬(p.data <+: q.data)) (hnqp : ¬(q.data <+: p.data))
    (hq : strStartsWith s q = true) : strStartsWith s p = false := by
  cases hp : strStartsWith s p with
  | false => rfl
  | true =>
    exfalso
    rw [strStartsWith, List.isPrefixOf_iff_prefix] at hq hp
    rcases Nat.le_total p.data.length q.data.length with hle | hle
    · exact hnpq (List.prefix_of_prefix_length_le hp hq hle)
    · exact hnqp (List.prefix_of_prefix_length_le hq hp hle)

/-- C1: `should_remove` returns true iff the image name carries one of the
three recognized prefixes with the cache level inside that prefix's removal
set ("sweb.base" for cache "none"; "sweb.env" for cache in {"none","base"};
"sweb.eval" for cache in {"none","base","env"}), and additionally the clean
flag is set or the name is not among the prior images; any other prefix is
never removed. -/
theorem should_remove_characterization (name cache : String) (clean : Bool)
    (prior : List String) :
    should_remove name cache clean prior = true ↔
      (((strStartsWith name "sweb.base" = true ∧ cache = "none") ∨
        (strStartsWith name "sweb.env" = true ∧ (cache = "none" ∨ cache = "base")) ∨
        (strStartsWith name "sweb.eval" = true ∧
          (cache = "none" ∨ cache = "base" ∨ cache = "env"))) ∧
       (clean = true ∨ name ∉ prior)) := by
  by_cases h1 : strStartsWith name "sweb.base" = true
  · have h2 := strStartsWith_excl name "sweb.env" "sweb.base" (by decide) (by decide) h1
    have h3 := strStartsWith_excl name "sweb.eval" "sweb.base" (by decide) (by decide) h1
    simp [should_remove, h1, h2, h3, List.contains, List.elem_eq_mem, or_comm]
  · by_cases h2 : strStartsWith name "sweb.env" = true
    · have h3 := strStartsWith_excl name "sweb.eval" "sweb.env" (by decide) (by decide) h2
      simp [should_remove, h1, h2, h3, List.contains, List.elem_eq_mem, or_comm]
    · by_cases h3 : strStartsWith name "sweb.eval" = true
      · simp [should_remove, h1, h2, h3, List.contains, List.elem_eq_mem, or_comm]
      · simp [should_remove, h1, h2, h3]

/-- C2 counterexample: the claim asserts both calls return True, but on the
code both return False, because in each case the image existed before the
run and the clean flag is off. -/
theorem should_remove_c2_counterexample :
    ¬(should_remove "sweb.env.x" "base" false ["sweb.env.x"] = true ∧
      should_remove "sweb.eval.x" "env" false ["sweb.eval.x"] = true) := by
  decide

/-- C2 amended: with cache "base" an env image that existed before the run
and clean off is NOT removed, and with cache "env" an eval image that
existed before the run and clean off is NOT removed: the
clean-or-new condition fails in both cases. -/
theorem should_remove_c2_amended :
    should_remove "sweb.env.x" "base" false ["sweb.env.x"] = false ∧
    should_remove "sweb.eval.x" "env" false ["sweb.eval.x"] = false := by
  decide

/-! ### Logging modes shared by `cleanup_image` and `cleanup_container`

The Python functions take `logger` which is either `None`, the sentinel
string `"quiet"`, or a real logger object.  `emit` models the single
message sink selected at the top of each function (`print` for `None`,
a no-op for `"quiet"`, `logger.info` for a real logger), and
`raise_error` models the `raise_error` flag set alongside it. -/

inductive LoggerMode
  | noLogger
  | quiet
  | real
deriving Repr, DecidableEq

/-- Outcome of one call into the container engine: success, or an
exception carrying a message. -/
inductive EngineOutcome
  | ok
  | err (e : String)
deriving Repr, DecidableEq

/-- Messages accumulated on the two possible sinks: `printed` via Python
`print`, `logged` via the real logger object. -/
structure LogState where
  printed : List String
  logged : List String
deriving Repr, DecidableEq

/-- Route one message according to the logging mode (both `log_info` and
`log_error` are bound to the same sink in the source). -/
def emit (mode : LoggerMode) (st : LogState) (msg : String) : LogState :=
  match mode with
  | .noLogger => { st with printed := st.printed ++ [msg] }
  | .quiet => st
  | .real => { st with logged := st.logged ++ [msg] }

/-- The `raise_error` flag chosen by the `logger` tri-state. -/
def raise_error (mode : LoggerMode) : Bool :=
  match mode with
  | .noLogger => true
  | .quiet => true
  | .real => false

/-- Observable result of `cleanup_image`: messages printed, messages sent
to the logger, number of `client.images.remove` calls, and the exception
propagated to the caller (if any). -/
structure ImageCleanupResult where
  printed : List String
  logged : List String
  removeCalls : Nat
  raised : Option String
deriving Repr, DecidableEq

/-- Embedding of `cleanup_image(client, image_id, rm_image, logger)`.
`removeOutcome` is the behaviour of the engine's `images.remove` call and
`tb` stands for `traceback.format_exc()`. -/
def cleanup_image (mode : LoggerMode) (image_id : String) (rm_image : Bool)
    (removeOutcome : EngineOutcome) (tb : String) : ImageCleanupResult :=
  if rm_image then
    let st := emit mode ⟨[], []⟩ ("Attempting to remove image " ++ image_id ++ "...")
    match removeOutcome with
    | .ok =>
        let st := emit mode st ("Image " ++ image_id ++ " removed.")
        ⟨st.printed, st.logged, 1, Option.none⟩
    | .err e =>
        if raise_error mode then
          ⟨st.printed, st.logged, 1, some e⟩
        else
          let st := emit mode st
            ("Failed to remove image " ++ image_id ++ ": " ++ e ++ "\n" ++ tb)
          ⟨st.printed, st.logged, 1, Option.none⟩
  else
    ⟨[], [], 0, Option.none⟩

/-- Handle on a container as used by `cleanup_container` (its `.id` and
`.name` attributes). -/
structure ContainerHandle where
  id : String
  name : String
deriving Repr, DecidableEq

/-- Outcome of `client.api.inspect_container`: the `State.Pid` value
(0 when the key is missing, via `.get("Pid", 0)`), or an exception. -/
inductive InspectOutcome
  | ok (pid : Int)
  | err (e : String)
deriving Repr, DecidableEq

/-- Observable result of `cleanup_container`: messages on both sinks,
how many engine operations of each kind were attempted, and the
exception propagated to the caller (if any). -/
structure ContainerCleanupResult where
  printed : List String
  logged : List String
  stopCalls : Nat
  inspectCalls : Nat
  killCalls : Nat
  removeCalls : Nat
  raised : Option String
deriving Repr, DecidableEq

/-- The final `try: container.remove(force=True) ...` block of
`cleanup_container`, shared by every path that reaches it. -/
def remove_phase (mode : LoggerMode) (c : ContainerHandle) (st : LogState)
    (stopCalls inspectCalls killCalls : Nat) (removeOutcome : EngineOutcome)
    (tb : String) : ContainerCleanupResult :=
  let st := emit mode st ("Attempting to remove container " ++ c.name ++ "...")
  match removeOutcome with
  | .ok =>
      let st := emit mode st ("Container " ++ c.name ++ " removed.")
      ⟨st.printed, st.logged, stopCalls, inspectCalls, killCalls, 1, Option.none⟩
  | .err e =>
      if raise_error mode then
        ⟨st.printed, st.logged, stopCalls, inspectCalls, killCalls, 1, some e⟩
      else
        let st := emit mode st
          ("Failed to remove container " ++ c.name ++ ": " ++ e ++ "\n" ++ tb)
        ⟨st.printed, st.logged, stopCalls, inspectCalls, killCalls, 1, Option.none⟩

/-- Embedding of `cleanup_container(client, container, logger)`.
`stopOutcome` is the behaviour of `container.stop(timeout=15)`,
`inspectOutcome` of `client.api.inspect_container`, `killOutcome` of
`os.kill(pid, signal.SIGKILL)`, `removeOutcome` of
`container.remove(force=True)`, and `tb` stands for
`traceback.format_exc()`. -/
def cleanup_container (mode : LoggerMode) (container : Option ContainerHandle)
    (stopOutcome : EngineOutcome) (inspectOutcome : InspectOutcome)
    (killOutcome : EngineOutcome) (removeOutcome : EngineOutcome)
    (tb : String) : ContainerCleanupResult :=
  match container with
  | Option.none => ⟨[], [], 0, 0, 0, 0, Option.none⟩
  | some c =>
    let st := emit mode ⟨[], []⟩ ("Attempting to stop container " ++ c.name ++ "...")
    match stopOutcome with
    | .ok =>
        remove_phase mode c st 1 0 0 removeOutcome tb
    | .err e =>
        let st := emit mode st
          ("Failed to stop container " ++ c.name ++ ": " ++ e ++
            ". Trying to forcefully kill...")
        match inspectOutcome with
        | .err e2 =>
            if raise_error mode then
              ⟨st.printed, st.logged, 1, 1, 0, 0, some e2⟩
            else
              let st := emit mode st
                ("Failed to forcefully kill container " ++ c.name ++ ": " ++
                  e2 ++ "\n" ++ tb)
              remove_phase mode c st 1 1 0 removeOutcome tb
        | .ok pid =>
            if pid > 0 then
              let st := emit mode st
                ("Forcefully killing container " ++ c.name ++ " with PID " ++
                  toString pid ++ "...")
              match killOutcome with
              | .ok => remove_phase mode c st 1 1 1 removeOutcome tb
              | .err e2 =>
                  if raise_error mode then
                    ⟨st.printed, st.logged, 1, 1, 1, 0, some e2⟩
                  else
                    let st := emit mode st
                      ("Failed to forcefully kill container " ++ c.name ++ ": " ++
                        e2 ++ "\n" ++ tb)
                    remove_phase mode c st 1 1 1 removeOutcome tb
            else
              let st := emit mode st
                ("PID for container " ++ c.name ++ ": " ++ toString pid ++
                  " - not killing.")
              remove_phase mode c st 1 1 0 removeOutcome tb

/-- The kill-fallback block of `cleanup_container` raises an exception
exactly when the stop failed and then either the inspect call failed, or a
positive PID was found and the kill call failed. -/
def kill_fallback_raises (stopOutcome : EngineOutcome)
    (inspectOutcome : InspectOutcome) (killOutcome : EngineOutcome) : Bool :=
  match stopOutcome with
  | .ok => false
  | .err _ =>
    match inspectOutcome with
    | .err _ => true
    | .ok pid =>
      if pid > 0 then
        match killOutcome with
        | .ok => false
        | .err _ => true
      else false

/-- In quiet mode neither sink ever receives a message. -/
theorem cleanup_container_quiet_silent (c : ContainerHandle)
    (stopO : EngineOutcome) (inspectO : InspectOutcome)
    (killO removeO : EngineOutcome) (tb : String) :
    (cleanup_container .quiet (some c) stopO inspectO killO removeO tb).printed = [] ∧
    (cleanup_container .quiet (some c) stopO inspectO killO removeO tb).logged = [] := by
  cases stopO <;> cases inspectO <;> cases killO <;> cases removeO <;>
    simp [cleanup_container, remove_phase, emit, raise_error] <;>
    split <;> simp [remove_phase, emit, raise_error]

/-- C4 counterexample: with `logger=None` and a failing removal, the only
printed message is the progress line, which does not contain the error
text — the error is re-raised without being printed, contradicting the
claim that the error is printed. -/
theorem cleanup_image_c4_counterexample :
    (cleanup_image .noLogger "img" true (.err "boom") "tb").printed =
      ["Attempting to remove image img..."] ∧
    ¬("boom".data <:+: "Attempting to remove image img...".data) ∧
    (cleanup_image .noLogger "img" true (.err "boom") "tb").raised = some "boom" := by
  decide

/-- C4 (amended): when removal fails, `logger=None` prints the progress
message only and re-raises; `"quiet"` produces no output and re-raises; a
real logger receives both the progress and the error message and the
failure is swallowed; a real logger is the only mode in which the failure
does not propagate. -/
theorem cleanup_image_failure_modes (img e tb : String) :
    cleanup_image .noLogger img true (.err e) tb =
      ⟨["Attempting to remove image " ++ img ++ "..."], [], 1, some e⟩ ∧
    cleanup_image .quiet img true (.err e) tb = ⟨[], [], 1, some e⟩ ∧
    cleanup_image .real img true (.err e) tb =
      ⟨[], ["Attempting to remove image " ++ img ++ "...",
            "Failed to remove image " ++ img ++ ": " ++ e ++ "\n" ++ tb], 1,
        Option.none⟩ ∧
    ∀ mode, (cleanup_image mode img true (.err e) tb).raised = Option.none ↔
      mode = LoggerMode.real := by
  refine ⟨rfl, rfl, rfl, ?_⟩
  intro mode
  cases mode <;> simp [cleanup_image, emit, raise_error]

/-- C5 counterexample: with `logger="quiet"` and a failing removal,
`cleanup_image` re-raises the failure instead of swallowing it. -/
theorem cleanup_image_c5_counterexample :
    (cleanup_image .quiet "img" true (.err "boom") "tb").raised = some "boom" := by
  rfl

/-- C5 (amended): with `logger="quiet"` and a failing engine operation,
`cleanup_image` and `cleanup_container` produce no output on either sink,
but the failure is re-raised, not swallowed. -/
theorem cleanup_quiet_silent_but_raises (img e tb : String) (c : ContainerHandle) :
    cleanup_image .quiet img true (.err e) tb = ⟨[], [], 1, some e⟩ ∧
    cleanup_container .quiet (some c) .ok (.ok 0) .ok (.err e) tb =
      ⟨[], [], 1, 0, 0, 1, some e⟩ ∧
    ∀ stopO inspectO killO removeO,
      (cleanup_container .quiet (some c) stopO inspectO killO removeO tb).printed = [] ∧
      (cleanup_container .quiet (some c) stopO inspectO killO removeO tb).logged = [] := by
  exact ⟨rfl, rfl, fun stopO inspectO killO removeO =>
    cleanup_container_quiet_silent c stopO inspectO killO removeO tb⟩

/-- C6 counterexample: with `logger=None`, when the graceful stop fails and
the inspect call of the kill fallback also fails, the exception propagates
before the removal block, so force-removal is never attempted. -/
theorem cleanup_container_c6_counterexample :
    (cleanup_container .noLogger (some ⟨"cid", "cname"⟩) (.err "stopfail")
        (.err "inspectfail") .ok .ok "tb").removeCalls = 0 ∧
    (cleanup_container .noLogger (some ⟨"cid", "cname"⟩) (.err "stopfail")
        (.err "inspectfail") .ok .ok "tb").raised = some "inspectfail" := by
  exact ⟨rfl, rfl⟩

/-- C6 (amended): with a non-null container handle, force-removal is
attempted in every case except when the logging mode re-raises
(`logger=None` or `"quiet"`) and the kill fallback itself raises (the
inspect call fails, or a positive PID is found and the kill fails); in
particular with a real logger removal is always attempted. -/
theorem cleanup_container_remove_attempted (mode : LoggerMode) (c : ContainerHandle)
    (stopO : EngineOutcome) (inspectO : InspectOutcome)
    (killO removeO : EngineOutcome) (tb : String) :
    (cleanup_container mode (some c) stopO inspectO killO removeO tb).removeCalls =
      (if raise_error mode && kill_fallback_raises stopO inspectO killO
        then 0 else 1) := by
  cases mode <;> cases stopO <;> cases inspectO <;> cases killO <;> cases removeO <;>
    simp [cleanup_container, remove_phase, emit, raise_error, kill_fallback_raises] <;>
    split <;> simp [remove_phase, emit, raise_error]

/-- C9: with a null container handle, `cleanup_container` is a complete
no-op for every logging mode and every engine behaviour: no message, no
engine call, no exception. -/
theorem cleanup_container_none_noop (mode : LoggerMode) (stopO : EngineOutcome)
    (inspectO : InspectOutcome) (killO removeO : EngineOutcome) (tb : String) :
    cleanup_container mode Option.none stopO inspectO killO removeO tb =
      ⟨[], [], 0, 0, 0, 0, Option.none⟩ := rfl

/-- C10: with `rm_image=False`, `cleanup_image` is a complete no-op for
every logging mode, image id, and engine behaviour: no removal call, no
output, no exception. -/
theorem cleanup_image_no_rm_noop (mode : LoggerMode) (img : String)
    (removeOutcome : EngineOutcome) (tb : String) :
    cleanup_image mode img false removeOutcome tb = ⟨[], [], 0, Option.none⟩ := rfl

/-! ### `exec_run_with_timeout`

The worker thread's state at the moment the caller's `thread.join(timeout)`
returns is modelled by `WorkerOutcome`: the dispatched command finished
with a result, the dispatch raised an exception (caught into the shared
`exception` cell), or the worker is still alive at the deadline. -/

inductive WorkerOutcome
  | done (res : String)
  | raised (exc : String)
  | runningAtDeadline
deriving Repr, DecidableEq

/-- What `exec_run_with_timeout` surfaces to the caller on failure: the
worker's own exception re-raised, or a `TimeoutError` with a message. -/
inductive ExecError
  | raisedExc (e : String)
  | timeoutErr (msg : String)
deriving Repr, DecidableEq

/-- Embedding of `exec_run_with_timeout(container, cmd, timeout)`: after
joining the worker, a stored exception is re-raised first; otherwise a
still-alive worker means a `TimeoutError`; otherwise the worker's raw
result is returned. -/
def exec_run_with_timeout (cmd : String) (timeout : Nat)
    (worker : WorkerOutcome) : Except ExecError String :=
  match worker with
  | .raised e => Except.error (ExecError.raisedExc e)
  | .runningAtDeadline =>
      Except.error (ExecError.timeoutErr
        ("Command \x27" ++ cmd ++ "\x27 timed out after " ++ toString timeout ++
          " seconds"))
  | .done r => Except.ok r

/-- C3: `exec_run_with_timeout` has exactly three outcomes: a completed
dispatch returns its raw result; a dispatch that raised re-raises that same
exception (not a timeout); a worker still running at the deadline yields a
timeout error whose message contains the command text and the timeout
value in seconds. -/
theorem exec_run_with_timeout_trichotomy (cmd : String) (timeout : Nat)
    (worker : WorkerOutcome) :
    (∃ r, worker = WorkerOutcome.done r ∧
      exec_run_with_timeout cmd timeout worker = Except.ok r) ∨
    (∃ e, worker = WorkerOutcome.raised e ∧
      exec_run_with_timeout cmd timeout worker =
        Except.error (ExecError.raisedExc e)) ∨
    (worker = WorkerOutcome.runningAtDeadline ∧
      ∃ msg, exec_run_with_timeout cmd timeout worker =
          Except.error (ExecError.timeoutErr msg) ∧
        cmd.data <:+: msg.data ∧ (toString timeout).data <:+: msg.data) := by
  cases worker with
  | done r => exact Or.inl ⟨r, rfl, rfl⟩
  | raised e => exact Or.inr (Or.inl ⟨e, rfl, rfl⟩)
  | runningAtDeadline =>
      refine Or.inr (Or.inr ⟨rfl, _, rfl, ?_, ?_⟩)
      · exact ⟨"Command \x27".data,
          ("\x27 timed out after " ++ toString timeout ++ " seconds").data,
          by simp [String.data_append, List.append_assoc]⟩
      · exact ⟨("Command \x27" ++ cmd ++ "\x27 timed out after ").data,
          " seconds".data,
          by simp [String.data_append, List.append_assoc]⟩

/-! ### `get_session_id` -/

/-- `string.ascii_uppercase`. -/
def ascii_uppercase : String := "ABCDEFGHIJKLMNOPQRSTUVWXYZ"

/-- `string.ascii_lowercase`. -/
def ascii_lowercase : String := "abcdefghijklmnopqrstuvwxyz"

/-- `string.digits`. -/
def string_digits : String := "0123456789"

/-- The `characters` alphabet built in `get_session_id`. -/
def characters : String := "" ++ ascii_uppercase ++ ascii_lowercase ++ string_digits

/-- Embedding of `get_session_id(length)`.  The Python argument may be a
non-integer, modelled by `Option.none` (so `isinstance(length, int)`
fails); `rand` models the successive draws of `random_gen.choice(characters)`,
each an element of the alphabet. -/
def get_session_id (length : Option Int)
    (rand : Nat → Fin characters.data.length) : Except String String :=
  match length with
  | Option.none => Except.error "Length must be a positive integer."
  | some n =>
    if n ≤ 0 then Except.error "Length must be a positive integer."
    else if characters = "" then
      Except.error
        "At least one character set (uppercase, lowercase, digits) must be enabled."
    else
      Except.ok (String.mk
        ((List.range n.toNat).map fun i => characters.data.get (rand i)))

/-- A fixed sequence of draws, used to instantiate `get_session_id`. -/
def constRand : Nat → Fin characters.data.length := fun _ => ⟨0, by decide⟩

/-- C7: the alphabet has 62 alphanumeric characters; for every positive
length the generated string has exactly that length and draws every
character from the alphabet; zero or negative lengths and non-integer
arguments fail with the invalid-argument error. -/
theorem get_session_id_spec (n : Int) (rand : Nat → Fin characters.data.length)
    (h : 0 < n) :
    characters.data.length = 62 ∧
    (∀ c ∈ characters.data, c.isAlphanum = true) ∧
    (∃ s, get_session_id (some n) rand = Except.ok s ∧
      s.length = n.toNat ∧
      ∀ c ∈ s.data, c ∈ characters.data ∧ c.isAlphanum = true) ∧
    (∀ m : Int, m ≤ 0 → get_session_id (some m) rand =
      Except.error "Length must be a positive integer.") ∧
    get_session_id Option.none rand =
      Except.error "Length must be a positive integer." := by
  have hch : (characters = "") = False := eq_false (by decide)
  refine ⟨by decide, by decide, ?_, ?_, rfl⟩
  · have hn : ¬ n ≤ 0 := not_le.mpr h
    refine ⟨String.mk ((List.range n.toNat).map fun i => characters.data.get (rand i)),
      by simp [get_session_id, hn, hch], ?_, ?_⟩
    · show ((List.range n.toNat).map fun i => characters.data.get (rand i)).length = n.toNat
      simp
    · intro c hc
      have hc' : c ∈ (List.range n.toNat).map fun i => characters.data.get (rand i) := hc
      obtain ⟨i, -, rfl⟩ := List.mem_map.mp hc'
      have hall : ∀ c ∈ characters.data, c.isAlphanum = true := by decide
      have hmem : characters.data.get (rand i) ∈ characters.data :=
        List.get_mem characters.data (rand i).val (rand i).isLt
      exact ⟨hmem, hall _ hmem⟩
  · intro m hm
    simp [get_session_id, hm]

/-- C7 witness: the theorem instantiated at length 3 with constant draws. -/
theorem get_session_id_spec_witness :
    (0 : Int) < 3 ∧
    (characters.data.length = 62 ∧
     (∀ c ∈ characters.data, c.isAlphanum = true) ∧
     (∃ s, get_session_id (some 3) constRand = Except.ok s ∧
       s.length = (3 : Int).toNat ∧
       ∀ c ∈ s.data, c ∈ characters.data ∧ c.isAlphanum = true) ∧
     (∀ m : Int, m ≤ 0 → get_session_id (some m) constRand =
       Except.error "Length must be a positive integer.") ∧
     get_session_id Option.none constRand =
       Except.error "Length must be a positive integer.") :=
  ⟨by decide, get_session_id_spec 3 constRand (by decide)⟩

/-! ### `copy_to_container` -/

/-- Model of Python `os.path.dirname` (POSIX rules): everything up to and
including the last slash, with trailing slashes stripped unless the head
consists only of slashes. -/
def dirname (p : String) : String :=
  let l := p.data
  let i : Nat :=
    match l.reverse.findIdx? (fun c => c = '/') with
    | Option.none => 0
    | some j => l.length - j
  let head := l.take i
  if head ≠ [] ∧ ¬(head.all fun c => c = '/') then
    String.mk ((head.reverse.dropWhile fun c => c = '/').reverse)
  else
    String.mk head

/-- One step of the `copy_to_container` sequence, in program order. -/
inductive CopyOp
  | createLocalTar
  | readLocalTar
  | execMkdirParent
  | putArchive (dir : String)
  | execExtractTar
  | unlinkLocalTar
  | execRemoveTar
deriving Repr, DecidableEq

/-- Embedding of `copy_to_container(container, src, dst)` as the exception
it raises (if any) together with the trace of local-filesystem and
container operations it performs: the empty-parent guard runs first, and
only past it are the local tar created and the container touched. -/
def copy_to_container (src dst : String) : Option String × List CopyOp :=
  if dirname dst = "" then
    (some ("Destination path parent directory cannot be empty!, dst: " ++ dst), [])
  else
    (Option.none,
      [CopyOp.createLocalTar, CopyOp.readLocalTar, CopyOp.execMkdirParent,
       CopyOp.putArchive (dirname dst), CopyOp.execExtractTar,
       CopyOp.unlinkLocalTar, CopyOp.execRemoveTar])

/-- C8: a destination whose parent directory is empty raises the
invalid-argument error with an empty operation trace: no container
operation and no local temporary file. -/
theorem copy_to_container_empty_parent (src dst : String)
    (h : dirname dst = "") :
    copy_to_container src dst =
      (some ("Destination path parent directory cannot be empty!, dst: " ++ dst),
        []) := by
  simp [copy_to_container, h]

/-- C8 witness: the theorem instantiated at `dst = "file.txt"`. -/
theorem copy_to_container_empty_parent_witness :
    dirname "file.txt" = "" ∧
    copy_to_container "src.txt" "file.txt" =
      (some ("Destination path parent directory cannot be empty!, dst: " ++
        "file.txt"), []) :=
  ⟨by decide, copy_to_container_empty_parent "src.txt" "file.txt" (by decide)⟩

end DockerUtils
